import Mathlib

/-!
Verification of the retry/backoff wrapper and webhook routing logic of a
Flask service (src/app.py) that rewrites bug reports through an external
language-model API and optionally pushes the result into an issue tracker.

The embedding models:
* `call_openai_with_retry` (src/app.py lines 32-49) as a function over the
  sequence of per-attempt outcomes (an HTTP response status, or a
  transport-level error raised by the POST itself), recording the returned
  result, the list of backoff waits performed (in time units), and the
  number of HTTP POST attempts made;
* the `webhook` handler (src/app.py lines 133-182) as a function of the
  parsed inbound payload plus oracles for the two network interactions it
  performs (the generation call and the tracker update), recording the
  response, its HTTP code, and whether generation / a tracker update were
  attempted.

Python dictionary/values semantics (truthiness, `in`, indexing, `.get`) are
modelled on a JSON value type; exception message texts other than
`str(KeyError(k))` (which Python renders as the quoted key) are abstracted.
-/

/-- A JSON value, as Python represents a parsed request payload. -/
inductive Json where
  | null
  | bool (b : Bool)
  | num (n : Int)
  | str (s : String)
  | arr (elems : List Json)
  | obj (entries : List (String × Json))

/-- Python exceptions that the modelled dictionary operations can raise. -/
inductive PyErr where
  | keyError (key : String)
  | typeError
  | attributeError
deriving DecidableEq

/-- `str(e)` for the modelled exceptions: `str(KeyError(k))` is the key in
single quotes; the texts of `TypeError` / `AttributeError` messages are
abstracted. -/
def pyErrString : PyErr → String
  | .keyError k => "\x27" ++ k ++ "\x27"
  | .typeError => "TypeError"
  | .attributeError => "AttributeError"

/-- Python truthiness of a JSON value (`if not data`, `if not description`). -/
def pyTruthy : Json → Bool
  | .null => false
  | .bool b => b
  | .num n => n != 0
  | .str s => s != ""
  | .arr elems => !elems.isEmpty
  | .obj entries => !entries.isEmpty

/-- Truthiness of an optional value (Python variables initialised to `None`). -/
def pyOptTruthy : Option Json → Bool
  | none => false
  | some j => pyTruthy j

/-- First-match lookup in a JSON object's entry list (Python dict access). -/
def pyLookup : List (String × Json) → String → Option Json
  | [], _ => none
  | (k, v) :: rest, key => if k = key then some v else pyLookup rest key

/-- `needle` occurs as a contiguous substring of `hay` (Python `in` on `str`). -/
def subOccurs (needle : List Char) : List Char → Bool
  | [] => needle.isEmpty
  | c :: rest => needle.isPrefixOf (c :: rest) || subOccurs needle rest

/-- Python `key in value`: key membership for a dict, element equality for a
list, substring test for a string; `TypeError` for non-container values. -/
def pyContains (j : Json) (key : String) : Except PyErr Bool :=
  match j with
  | .obj entries => .ok (pyLookup entries key).isSome
  | .arr elems => .ok (elems.any fun e => match e with | .str s => s == key | _ => false)
  | .str s => .ok (subOccurs key.toList s.toList)
  | _ => .error .typeError

/-- Python `value[key]` with a string key: dict lookup raising `KeyError`
when absent; `TypeError` for any non-dict value (string/list indices must
be integers). -/
def pyIndex (j : Json) (key : String) : Except PyErr Json :=
  match j with
  | .obj entries =>
    match pyLookup entries key with
    | some v => .ok v
    | none => .error (.keyError key)
  | _ => .error .typeError

/-- Python `value.get(key, default)`: defined for dicts only;
`AttributeError` on any other value. -/
def pyGetDefault (j : Json) (key : String) (default : Json) : Except PyErr Json :=
  match j with
  | .obj entries => .ok ((pyLookup entries key).getD default)
  | _ => .error .attributeError

/-! ## Resilient caller: `call_openai_with_retry` (src/app.py lines 32-49) -/

/-- The observable outcome of one `requests.post` attempt: an HTTP response
with the given status, or a transport-level error (connection failure,
timeout) raised by the POST itself. -/
inductive AttemptOutcome where
  | response (status : Nat)
  | transportError
deriving DecidableEq

/-- How `call_openai_with_retry` terminates: `success s` returns the
response with status `s`; `exhausted` is the terminal
`Exception("Failed after retries due to rate limits")` raised after the
loop ends. -/
inductive CallResult where
  | success (status : Nat)
  | exhausted
deriving DecidableEq

/-- Trace of one run of the retry loop: its result, the backoff waits
performed (time units, in order), and the number of POST attempts made. -/
structure RetryRun where
  result : CallResult
  waits : List Nat
  attempts : Nat
deriving DecidableEq

/-- `requests` raises `HTTPError` from `raise_for_status()` exactly for
statuses 400-599. -/
def isHttpErrorStatus (s : Nat) : Bool := 400 ≤ s && s < 600

/-- One retried attempt: a backoff wait of `2 ^ attempt` time units is
recorded and the rest of the loop continues (`time.sleep(2 ** attempt)`
followed by `continue` or by falling through the `except` handler). -/
def retryStep (rest : RetryRun) (attempt : Nat) : RetryRun :=
  ⟨rest.result, 2 ^ attempt :: rest.waits, rest.attempts + 1⟩

/-- The loop of `call_openai_with_retry`, from a given zero-indexed
`attempt` with `remaining` loop iterations left.  A 429 response sleeps and
continues; `raise_for_status()` on a 400-599 status raises `HTTPError`,
which is a subclass of `requests.exceptions.RequestException` and is
therefore caught by the same handler as transport errors: it sleeps and
retries.  Any other status is returned immediately.  When the iterations
are exhausted the terminal exception is raised. -/
def callAux (outcomes : Nat → AttemptOutcome) (attempt remaining : Nat) : RetryRun :=
  match remaining with
  | 0 => ⟨.exhausted, [], 0⟩
  | r + 1 =>
    match outcomes attempt with
    | .transportError => retryStep (callAux outcomes (attempt + 1) r) attempt
    | .response s =>
      if s = 429 then retryStep (callAux outcomes (attempt + 1) r) attempt
      else if isHttpErrorStatus s then retryStep (callAux outcomes (attempt + 1) r) attempt
      else ⟨.success s, [], 1⟩

/-- `call_openai_with_retry(payload, headers, max_retries=5)`, abstracted
over the sequence of per-attempt network outcomes. -/
def call_openai_with_retry (outcomes : Nat → AttemptOutcome) (max_retries : Nat := 5) : RetryRun :=
  callAux outcomes 0 max_retries

/-- C3: given the response sequence [429, 429, 200], exactly two backoff
waits occur, of durations 1 and 2 time units (2 ^ attempt, zero-indexed),
and the 200 response is returned after exactly three POSTs, without
continuing the loop. -/
theorem C3_two_backoffs_then_success :
    call_openai_with_retry (fun n => if n < 2 then .response 429 else .response 200) 5 =
      ⟨.success 200, [1, 2], 3⟩ := by
  decide

/-- C4: with `max_retries = 3` and every response a 429, the call ends with
the terminal exhausted-retries exception after exactly three POST attempts;
no fourth attempt is made. -/
theorem C4_exhausted_after_three :
    call_openai_with_retry (fun _ => .response 429) 3 = ⟨.exhausted, [1, 2, 4], 3⟩ := by
  decide

/-! ## Tracker update and webhook handler (src/app.py lines 91-182) -/

/-- An HTTP response as observed by the handler: status code and body text. -/
structure HttpResponse where
  status : Nat
  body : String
deriving DecidableEq

/-- `update_jira` (src/app.py lines 91-130), abstracted over the raw outcome
of the PUT request: a transport error propagates, and `raise_for_status()`
turns a 400-599 status into a terminal `HTTPError`; otherwise the response
is returned. -/
def update_jira (raw : Except String HttpResponse) : Except String HttpResponse :=
  match raw with
  | .error e => .error e
  | .ok r => if isHttpErrorStatus r.status then .error ("HTTP error " ++ toString r.status) else .ok r

/-- The fixed synthetic success message substituted for an empty tracker
response (src/app.py line 174). -/
def syntheticSuccessMessage : String := "Issue updated successfully. (No content returned from Jira)"

/-- Normalisation of the tracker-update response (src/app.py lines 173-176):
a 204 status, or a body that is empty after stripping whitespace, yields the
fixed synthetic success object; otherwise the body is parsed as JSON
(`update_resp.json()`, abstracted as the oracle `bodyParse`, whose failure
is an exception). -/
def normalizeJiraResponse (r : HttpResponse) (bodyParse : String → Except String Json) : Except String Json :=
  if r.status = 204 ∨ r.body.trim = "" then
    .ok (.obj [("message", .str syntheticSuccessMessage)])
  else bodyParse r.body

/-- The webhook handler's possible responses (src/app.py lines 139-182). -/
inductive WebhookResponse where
  | errorNoPayload
  | skipped
  | consoleSuccess (title description : Json)
  | jiraSuccess (jiraResponse : Json)
  | internalError (message : String)

/-- The JSON body `jsonify(...)` produces for each response. -/
def responseBody : WebhookResponse → Json
  | .errorNoPayload => .obj [("status", .str "error"), ("message", .str "No JSON payload received")]
  | .skipped => .obj [("status", .str "skipped"), ("message", .str "Empty description")]
  | .consoleSuccess t d => .obj [("status", .str "success"), ("title", t), ("description", d)]
  | .jiraSuccess j => .obj [("status", .str "success"), ("jira_response", j)]
  | .internalError m => .obj [("status", .str "error"), ("message", .str m)]

/-- Trace of one webhook invocation: the response and its HTTP status code,
and whether the generation call and the tracker update were attempted. -/
structure WebhookRun where
  response : WebhookResponse
  httpCode : Nat
  genCalled : Bool
  updateAttempted : Bool

/-- The `elif "description" in data` arm of extraction (src/app.py
lines 153-154): a top-level `description` field, no issue key. -/
def webhookExtractDirect (data : Json) : Except PyErr (Option Json × Option Json) :=
  match pyContains data "description" with
  | .error e => .error e
  | .ok true =>
    match pyIndex data "description" with
    | .error e => .error e
    | .ok d => .ok (none, some d)
  | .ok false => .ok (none, none)

/-- Extraction of `(issue_key, description)` from the payload (src/app.py
lines 144-154): if `"issue" in data and "key" in data["issue"]`, the key is
`data["issue"]["key"]` and the description is
`data["issue"]["fields"].get("description", "")`; otherwise the direct-input
arm runs. -/
def webhookExtract (data : Json) : Except PyErr (Option Json × Option Json) :=
  match pyContains data "issue" with
  | .error e => .error e
  | .ok true =>
    match pyIndex data "issue" with
    | .error e => .error e
    | .ok issue =>
      match pyContains issue "key" with
      | .error e => .error e
      | .ok true =>
        match pyIndex issue "key" with
        | .error e => .error e
        | .ok issueKey =>
          match pyIndex issue "fields" with
          | .error e => .error e
          | .ok fields =>
            match pyGetDefault fields "description" (.str "") with
            | .error e => .error e
            | .ok description => .ok (some issueKey, some description)
      | .ok false => webhookExtractDirect data
  | .ok false => webhookExtractDirect data

/-- The `webhook` handler (src/app.py lines 133-182), abstracted over the
parsed inbound payload (`none` when no JSON body could be obtained), the
outcome of `generate_report` (the parsed model output, or the exception
message of a failed call / JSON parse), the raw outcome of the tracker PUT,
and the JSON parse of the tracker response body.  Every exception raised
inside the `try` block is caught once at the top level and becomes an
"error" response with status 500 carrying the exception's message. -/
def webhook (data : Option Json) (genResult : Except String Json)
    (updRaw : Except String HttpResponse) (bodyParse : String → Except String Json) : WebhookRun :=
  match data with
  | none => ⟨.errorNoPayload, 400, false, false⟩
  | some d =>
    if pyTruthy d then
      match webhookExtract d with
      | .error e => ⟨.internalError (pyErrString e), 500, false, false⟩
      | .ok (issueKey, description) =>
        if pyOptTruthy description then
          match genResult with
          | .error m => ⟨.internalError m, 500, true, false⟩
          | .ok parsed =>
            match pyGetDefault parsed "title" (.str "No Title Generated") with
            | .error e => ⟨.internalError (pyErrString e), 500, true, false⟩
            | .ok newTitle =>
              match pyGetDefault parsed "description" (.str "No Description Provided") with
              | .error e => ⟨.internalError (pyErrString e), 500, true, false⟩
              | .ok newDescription =>
                if pyOptTruthy issueKey then
                  match update_jira updRaw with
                  | .error m => ⟨.internalError m, 500, true, true⟩
                  | .ok r =>
                    match normalizeJiraResponse r bodyParse with
                    | .error m => ⟨.internalError m, 500, true, true⟩
                    | .ok jr => ⟨.jiraSuccess jr, 200, true, true⟩
                else
                  ⟨.consoleSuccess newTitle newDescription, 200, true, false⟩
        else ⟨.skipped, 200, false, false⟩
    else ⟨.errorNoPayload, 400, false, false⟩

/-! ## Claim theorems -/

/-- C1 (counterexample): with a 500 response on the first attempt and
`max_retries = 2`, the claim "any non-success status other than 429
terminates immediately with no further attempt" is false: a second POST is
made (attempts = 2), each failure is followed by a backoff wait (waits
[1, 2]), and the run ends in the exhausted-retries exception rather than an
immediate HTTP-error exception. -/
theorem C1_counterexample :
    call_openai_with_retry (fun _ => .response 500) 2 = ⟨.exhausted, [1, 2], 2⟩ ∧
    (call_openai_with_retry (fun _ => .response 500) 2).attempts ≠ 1 := by
  decide

/-- C1 (amended): `raise_for_status()` raises `HTTPError`, a subclass of
`RequestException`, so every non-success HTTP status from 400 to 599
(429 included) is caught by the retry handler: the attempt performs a
backoff wait of 2 ^ attempt time units and the loop continues with the next
attempt; a terminal error arises only when the loop bound is exhausted. -/
theorem C1_http_error_status_is_retried (outcomes : Nat → AttemptOutcome) (attempt r s : Nat)
    (hout : outcomes attempt = .response s) (h4 : 400 ≤ s) (h6 : s < 600) :
    callAux outcomes attempt (r + 1) = retryStep (callAux outcomes (attempt + 1) r) attempt := by
  have hb : isHttpErrorStatus s = true := by
    simp [isHttpErrorStatus]
    omega
  by_cases h429 : s = 429 <;> simp [callAux, hout, h429, hb]

/-- C1 (witness): the amended theorem at a concrete run: a 500 response on
attempt 0 with two iterations left waits 1 unit and continues. -/
theorem C1_http_error_status_is_retried_witness :
    callAux (fun _ => .response 500) 0 (1 + 1) =
      retryStep (callAux (fun _ => .response 500) 1 1) 0 :=
  C1_http_error_status_is_retried (fun _ => .response 500) 0 1 500 rfl (by decide) (by decide)

/-- C5: whenever extraction completes with a description that is the empty
string or was never resolved (remained `None`), the handler answers with the
"skipped" response and HTTP 200, and no generation call is made. -/
theorem C5_empty_description_skipped (d : Json) (issueKey description : Option Json)
    (genResult : Except String Json) (updRaw : Except String HttpResponse)
    (bodyParse : String → Except String Json)
    (hd : pyTruthy d = true) (hx : webhookExtract d = .ok (issueKey, description))
    (hdesc : pyOptTruthy description = false) :
    webhook (some d) genResult updRaw bodyParse = ⟨.skipped, 200, false, false⟩ := by
  simp [webhook, hd, hx, hdesc]

/-- C5 (witness): the payload with an empty top-level description is
answered "skipped" with HTTP 200 and no generation call. -/
theorem C5_empty_description_skipped_witness :
    webhook (some (.obj [("description", .str "")])) (.ok .null) (.ok ⟨200, ""⟩)
      (fun _ => .error "no parse") = ⟨.skipped, 200, false, false⟩ :=
  C5_empty_description_skipped (.obj [("description", .str "")]) none (some (.str ""))
    (.ok .null) (.ok ⟨200, ""⟩) (fun _ => .error "no parse") rfl rfl rfl

/-- C6: when no JSON payload could be obtained from the request, the handler
answers the "error" response with HTTP 400; extraction, generation and the
tracker update are never reached (both attempt flags stay false), whatever
the network oracles would have returned. -/
theorem C6_absent_payload_400 (genResult : Except String Json)
    (updRaw : Except String HttpResponse) (bodyParse : String → Except String Json) :
    webhook none genResult updRaw bodyParse = ⟨.errorNoPayload, 400, false, false⟩ := rfl

/-- C10: a well-formed JSON body that parses to a falsy value (the empty
object, null, false, 0, the empty string) is answered with the HTTP 400
"No JSON payload received" error response — not the "skipped" response —
and nothing else runs; the error body carries exactly that message. -/
theorem C10_falsy_payload_400 (d : Json) (genResult : Except String Json)
    (updRaw : Except String HttpResponse) (bodyParse : String → Except String Json)
    (hd : pyTruthy d = false) :
    webhook (some d) genResult updRaw bodyParse = ⟨.errorNoPayload, 400, false, false⟩ ∧
    responseBody .errorNoPayload =
      .obj [("status", .str "error"), ("message", .str "No JSON payload received")] := by
  refine ⟨?_, rfl⟩
  simp [webhook, hd]

/-- C10 (witness): the empty-object payload gets the 400 error response. -/
theorem C10_falsy_payload_400_witness :
    webhook (some (.obj [])) (.ok .null) (.ok ⟨200, ""⟩) (fun _ => .error "no parse") =
      ⟨.errorNoPayload, 400, false, false⟩ ∧
    responseBody .errorNoPayload =
      .obj [("status", .str "error"), ("message", .str "No JSON payload received")] :=
  C10_falsy_payload_400 (.obj []) (.ok .null) (.ok ⟨200, ""⟩) (fun _ => .error "no parse") rfl

/-- C2 (counterexample): a payload containing a tracker issue object with a
key — whose value is the empty string — and a non-empty description is
routed to console-only mode: the handler returns the console success
response and never attempts a tracker update, because `if not issue_key`
treats the falsy extracted key like an absent one. -/
theorem C2_counterexample :
    webhook
      (some (.obj [("issue", .obj [("key", .str ""),
        ("fields", .obj [("description", .str "The app crashes")])])]))
      (.ok (.obj [("title", .str "Crash on launch"), ("description", .str "Steps given")]))
      (.ok ⟨200, "body"⟩) (fun _ => .error "no parse") =
      ⟨.consoleSuccess (.str "Crash on launch") (.str "Steps given"), 200, true, false⟩ := rfl

/-- C2 (amended): a tracker update is attempted if and only if a truthy
issue key was resolved: when extraction yields a truthy (non-empty) key and
a truthy description and generation returns a JSON object, the handler
always attempts the tracker update (never console-only output); when the
resolved key is falsy or absent, no tracker update is ever attempted. -/
theorem C2_truthy_key_routes_to_update :
    (∀ (d k desc : Json) (kvs : List (String × Json)) (updRaw : Except String HttpResponse)
        (bodyParse : String → Except String Json),
      pyTruthy d = true → webhookExtract d = .ok (some k, some desc) →
      pyTruthy k = true → pyTruthy desc = true →
      (webhook (some d) (.ok (.obj kvs)) updRaw bodyParse).updateAttempted = true) ∧
    (∀ (d : Json) (issueKey description : Option Json) (genResult : Except String Json)
        (updRaw : Except String HttpResponse) (bodyParse : String → Except String Json),
      pyTruthy d = true → webhookExtract d = .ok (issueKey, description) →
      pyOptTruthy issueKey = false →
      (webhook (some d) genResult updRaw bodyParse).updateAttempted = false) := by
  constructor
  · intro d k desc kvs updRaw bodyParse hd hx hk hdesc
    simp [webhook, hd, hx, hk, hdesc, pyOptTruthy, pyGetDefault]
    rcases hu : update_jira updRaw with m | r
    · simp [hu]
    · rcases hn : normalizeJiraResponse r bodyParse with m | jr <;> simp [hu, hn]
  · intro d issueKey description genResult updRaw bodyParse hd hx hik
    simp only [webhook, hd, hx, if_true]
    simp only [pyOptTruthy] at hik
    rcases description with _ | v
    · simp [pyOptTruthy]
    · by_cases hv : pyTruthy v
      · simp only [pyOptTruthy, hv, if_true]
        rcases genResult with m | parsed
        · simp
        · rcases hp : pyGetDefault parsed "title" (.str "No Title Generated") with e | t
          · simp [hp]
          · rcases hq : pyGetDefault parsed "description" (.str "No Description Provided")
              with e | dd <;> simp [hp, hq, hik]
      · simp [pyOptTruthy, hv]

/-- C2 (witness): the amended theorem at concrete payloads: a truthy issue
key leads to a tracker-update attempt; an absent issue key never does. -/
theorem C2_truthy_key_routes_to_update_witness :
    (webhook (some (.obj [("issue", .obj [("key", .str "PROJ-1"),
        ("fields", .obj [("description", .str "Login fails")])])]))
      (.ok (.obj [("title", .str "T")])) (.ok ⟨204, ""⟩)
      (fun _ => .error "no parse")).updateAttempted = true ∧
    (webhook (some (.obj [("description", .str "Login fails")]))
      (.ok .null) (.ok ⟨204, ""⟩) (fun _ => .error "no parse")).updateAttempted = false :=
  ⟨C2_truthy_key_routes_to_update.1 (.obj [("issue", .obj [("key", .str "PROJ-1"),
      ("fields", .obj [("description", .str "Login fails")])])])
      (.str "PROJ-1") (.str "Login fails") [("title", .str "T")] (.ok ⟨204, ""⟩)
      (fun _ => .error "no parse") rfl rfl rfl rfl,
   C2_truthy_key_routes_to_update.2 (.obj [("description", .str "Login fails")])
      none (some (.str "Login fails")) (.ok .null) (.ok ⟨204, ""⟩)
      (fun _ => .error "no parse") rfl rfl rfl⟩

/-- C7: an exception raised during extraction, generation or the tracker
update is caught once at the top level and becomes the "error" response with
HTTP 500 carrying the exception's message. -/
theorem C7_exception_to_error_500 :
    (∀ (d : Json) (e : PyErr) (genResult : Except String Json)
        (updRaw : Except String HttpResponse) (bodyParse : String → Except String Json),
      pyTruthy d = true → webhookExtract d = .error e →
      webhook (some d) genResult updRaw bodyParse =
        ⟨.internalError (pyErrString e), 500, false, false⟩) ∧
    (∀ (d : Json) (issueKey description : Option Json) (m : String)
        (updRaw : Except String HttpResponse) (bodyParse : String → Except String Json),
      pyTruthy d = true → webhookExtract d = .ok (issueKey, description) →
      pyOptTruthy description = true →
      webhook (some d) (.error m) updRaw bodyParse = ⟨.internalError m, 500, true, false⟩) ∧
    (∀ (d k desc : Json) (kvs : List (String × Json)) (m : String)
        (bodyParse : String → Except String Json),
      pyTruthy d = true → webhookExtract d = .ok (some k, some desc) →
      pyTruthy k = true → pyTruthy desc = true →
      webhook (some d) (.ok (.obj kvs)) (.error m) bodyParse =
        ⟨.internalError m, 500, true, true⟩) := by
  refine ⟨?_, ?_, ?_⟩
  · intro d e genResult updRaw bodyParse hd hx
    simp [webhook, hd, hx]
  · intro d issueKey description m updRaw bodyParse hd hx hdesc
    simp [webhook, hd, hx, hdesc]
  · intro d k desc kvs m bodyParse hd hx hk hdesc
    simp [webhook, hd, hx, hk, hdesc, pyOptTruthy, pyGetDefault, update_jira]

/-- C7 (witness): concrete runs for each failing stage: a `TypeError` during
extraction, a failed generation call, and a failed tracker update all yield
the 500 "error" response carrying the message. -/
theorem C7_exception_to_error_500_witness :
    webhook (some (.obj [("issue", .num 5)])) (.ok .null) (.ok ⟨200, ""⟩)
      (fun _ => .error "no parse") =
      ⟨.internalError (pyErrString .typeError), 500, false, false⟩ ∧
    webhook (some (.obj [("description", .str "Broken")])) (.error "boom") (.ok ⟨200, ""⟩)
      (fun _ => .error "no parse") = ⟨.internalError "boom", 500, true, false⟩ ∧
    webhook (some (.obj [("issue", .obj [("key", .str "PROJ-9"),
        ("fields", .obj [("description", .str "Broken")])])]))
      (.ok (.obj [])) (.error "connection refused") (fun _ => .error "no parse") =
      ⟨.internalError "connection refused", 500, true, true⟩ :=
  ⟨C7_exception_to_error_500.1 (.obj [("issue", .num 5)]) .typeError (.ok .null)
      (.ok ⟨200, ""⟩) (fun _ => .error "no parse") rfl rfl,
   C7_exception_to_error_500.2.1 (.obj [("description", .str "Broken")]) none
      (some (.str "Broken")) "boom" (.ok ⟨200, ""⟩) (fun _ => .error "no parse") rfl rfl rfl,
   C7_exception_to_error_500.2.2 (.obj [("issue", .obj [("key", .str "PROJ-9"),
      ("fields", .obj [("description", .str "Broken")])])])
      (.str "PROJ-9") (.str "Broken") [] "connection refused"
      (fun _ => .error "no parse") rfl rfl rfl rfl⟩

/-- C8: a tracker-update response with status 204, or with a body that is
empty after stripping whitespace, is normalised to the fixed synthetic
success object for every possible body parser (so no JSON parse of the body
influences the result); through the handler, such a response (with a
non-error status, as enforced by `raise_for_status()`) yields the success
envelope wrapping exactly that synthetic message. -/
theorem C8_empty_update_response_synthetic :
    (∀ (r : HttpResponse) (bodyParse : String → Except String Json),
      r.status = 204 ∨ r.body.trim = "" →
      normalizeJiraResponse r bodyParse =
        .ok (.obj [("message", .str syntheticSuccessMessage)])) ∧
    (∀ (d k desc : Json) (kvs : List (String × Json)) (r : HttpResponse)
        (bodyParse : String → Except String Json),
      pyTruthy d = true → webhookExtract d = .ok (some k, some desc) →
      pyTruthy k = true → pyTruthy desc = true →
      isHttpErrorStatus r.status = false → (r.status = 204 ∨ r.body.trim = "") →
      webhook (some d) (.ok (.obj kvs)) (.ok r) bodyParse =
        ⟨.jiraSuccess (.obj [("message", .str syntheticSuccessMessage)]), 200, true, true⟩) := by
  constructor
  · intro r bodyParse h
    unfold normalizeJiraResponse
    rw [if_pos h]
  · intro d k desc kvs r bodyParse hd hx hk hdesc hrs hcond
    have hn : normalizeJiraResponse r bodyParse =
        .ok (.obj [("message", .str syntheticSuccessMessage)]) := by
      unfold normalizeJiraResponse
      rw [if_pos hcond]
    simp [webhook, hd, hx, hk, hdesc, pyOptTruthy, pyGetDefault, update_jira, hrs, hn]

/-- C8 (witness): a 204 response with empty body is normalised to the
synthetic message and, through the handler, wrapped in the success
envelope. -/
theorem C8_empty_update_response_synthetic_witness :
    normalizeJiraResponse ⟨204, ""⟩ (fun _ => .error "no parse") =
      .ok (.obj [("message", .str syntheticSuccessMessage)]) ∧
    webhook (some (.obj [("issue", .obj [("key", .str "PROJ-3"),
        ("fields", .obj [("description", .str "Broken form")])])]))
      (.ok (.obj [])) (.ok ⟨204, ""⟩) (fun _ => .error "no parse") =
      ⟨.jiraSuccess (.obj [("message", .str syntheticSuccessMessage)]), 200, true, true⟩ :=
  ⟨C8_empty_update_response_synthetic.1 ⟨204, ""⟩ (fun _ => .error "no parse") (Or.inl rfl),
   C8_empty_update_response_synthetic.2 (.obj [("issue", .obj [("key", .str "PROJ-3"),
      ("fields", .obj [("description", .str "Broken form")])])])
      (.str "PROJ-3") (.str "Broken form") [] ⟨204, ""⟩ (fun _ => .error "no parse")
      rfl rfl rfl rfl rfl (Or.inl rfl)⟩

/-- C9 (counterexample): the payload whose issue object has a key but no
`fields` member makes extraction raise `KeyError("fields")` — the indexing
`issue["fields"]` happens before the defaulting `.get` — so the handler
answers the 500 "error" response instead of completing extraction: the
claim that extraction never fails for issue-with-key payloads is false. -/
theorem C9_counterexample :
    webhookExtract (.obj [("issue", .obj [("key", .str "ABC-1")])]) =
      .error (.keyError "fields") ∧
    webhook (some (.obj [("issue", .obj [("key", .str "ABC-1")])])) (.ok .null)
      (.ok ⟨200, ""⟩) (fun _ => .error "no parse") =
      ⟨.internalError (pyErrString (.keyError "fields")), 500, false, false⟩ :=
  ⟨rfl, rfl⟩

/-- C9 (amended): for a payload whose issue object has a key and a `fields`
object, extraction succeeds with that key and with the `description` member
of `fields`, which defaults to the empty string exactly when the
`description` key is absent from `fields`; when the `fields` member itself
is absent from the issue object, extraction fails with `KeyError`. -/
theorem C9_fields_description_default :
    (∀ (kvs issueKvs fkvs : List (String × Json)) (k : Json),
      pyLookup kvs "issue" = some (.obj issueKvs) →
      pyLookup issueKvs "key" = some k →
      pyLookup issueKvs "fields" = some (.obj fkvs) →
      webhookExtract (.obj kvs) =
        .ok (some k, some ((pyLookup fkvs "description").getD (.str "")))) ∧
    (∀ (kvs issueKvs : List (String × Json)) (k : Json),
      pyLookup kvs "issue" = some (.obj issueKvs) →
      pyLookup issueKvs "key" = some k →
      pyLookup issueKvs "fields" = none →
      webhookExtract (.obj kvs) = .error (.keyError "fields")) := by
  constructor
  · intro kvs issueKvs fkvs k h1 h2 h3
    simp [webhookExtract, pyContains, pyIndex, pyGetDefault, h1, h2, h3]
  · intro kvs issueKvs k h1 h2 h3
    simp [webhookExtract, pyContains, pyIndex, h1, h2, h3]

/-- C9 (witness): the amended theorem at concrete payloads: with a `fields`
object lacking `description` the extracted description is the empty string;
with `fields` absent extraction raises `KeyError("fields")`. -/
theorem C9_fields_description_default_witness :
    webhookExtract (.obj [("issue", .obj [("key", .str "XY-7"),
        ("fields", .obj [("assignee", .str "sam")])])]) =
      .ok (some (.str "XY-7"), some (.str "")) ∧
    webhookExtract (.obj [("issue", .obj [("key", .str "XY-8")])]) =
      .error (.keyError "fields") :=
  ⟨C9_fields_description_default.1 [("issue", .obj [("key", .str "XY-7"),
      ("fields", .obj [("assignee", .str "sam")])])]
      [("key", .str "XY-7"), ("fields", .obj [("assignee", .str "sam")])]
      [("assignee", .str "sam")] (.str "XY-7") rfl rfl rfl,
   C9_fields_description_default.2 [("issue", .obj [("key", .str "XY-8")])]
      [("key", .str "XY-8")] (.str "XY-8") rfl rfl rfl⟩
